import Mathlib

/-!
Verification development for the LLM-Playground provider-dispatch relay
(`app/api/chat/route.ts`, Strategy-Pattern revision, together with the
earlier inline revision). The TypeScript code is shallowly embedded:
JSON values are an inductive type, JavaScript truthiness and the
`x || y` default idiom are modelled explicitly, and each provider
adapter is a record of its `canHandle` predicate and the outbound
request it builds.
-/

namespace LLMPlayground

/-- JSON values, as produced by JSON.parse / consumed by JSON.stringify.
Numbers are modelled as rationals (no NaN/Infinity, which JSON cannot
represent anyway); object fields are an ordered association list. -/
inductive Json where
  | null : Json
  | bool : Bool → Json
  | num : Rat → Json
  | str : String → Json
  | arr : List Json → Json
  | obj : List (String × Json) → Json

/-- Field lookup on a JSON value: the value stored under the key, or
`none` (JavaScript `undefined`) when the key is absent or the receiver
is not an object. With duplicate keys JSON.parse keeps the last
occurrence, hence the overriding fold. This is only the throw-free part
of JavaScript property access: a null receiver throws a TypeError
instead, which `jsAccess` below models. -/
def getField : Json → String → Option Json
  | .obj fields, k => fields.foldl (fun acc p => if p.1 == k then some p.2 else acc) none
  | _, _ => none

/-- Whether a JSON object carries the given key. -/
def hasField (j : Json) (k : String) : Bool :=
  (getField j k).isSome

/-- JavaScript property access `b.k` with its effect: on a null
receiver it throws a TypeError (`Except.error`, which the outer catch
of POST turns into HTTP 500); on any other receiver it yields the field
value, or `undefined` when absent or when the receiver is not an
object. -/
def jsAccess : Json → String → Except Unit (Option Json)
  | .null, _ => .error ()
  | b, k => .ok (getField b k)

/-- JavaScript truthiness of a JSON value (null, false, 0 and the empty
string are falsy; every array and object is truthy). -/
def truthy : Json → Bool
  | .null => false
  | .bool b => b
  | .num q => decide (q ≠ 0)
  | .str s => decide (s ≠ "")
  | .arr _ => true
  | .obj _ => true

/-- Truthiness of a possibly-undefined value (`undefined` is falsy). -/
def truthyOpt : Option Json → Bool
  | none => false
  | some j => truthy j

/-- The JavaScript expression `v || d` for a possibly-undefined JSON value. -/
def jsOrJson (v : Option Json) (d : Json) : Json :=
  match v with
  | some j => if truthy j then j else d
  | none => d

/-- The JavaScript expression `v || d` where `v` is a possibly-undefined
string (the content-or-default idiom of the source). -/
def jsOrStr (v : Option String) (d : String) : String :=
  match v with
  | some s => if s == "" then d else s
  | none => d

/-- Prefix test on character lists, the kernel-evaluable translation of
JavaScript String.prototype.startsWith. -/
def beginsWith : List Char → List Char → Bool
  | _, [] => true
  | [], _ :: _ => false
  | c :: cs, d :: ds => c == d && beginsWith cs ds

/-- The JavaScript expression `s.startsWith(pat)`. -/
def strBegins (s pat : String) : Bool :=
  beginsWith s.data pat.data

/-- One entry of `ChatRequest.messages`. The role is kept as a string,
mirroring the runtime representation (the adapters compare it against
the literals "system" and "user"). -/
structure Message where
  role : String
  content : String
deriving DecidableEq

/-- Serialization of a message back to JSON, field order as in source. -/
def Message.toJson (m : Message) : Json :=
  .obj [("role", .str m.role), ("content", .str m.content)]

/-- The optional `response_format` object of a ChatRequest. -/
structure RespFormat where
  type : String
deriving DecidableEq

/-- Serialization of a response_format object. -/
def RespFormat.toJson (f : RespFormat) : Json :=
  .obj [("type", .str f.type)]

/-- The ChatRequest interface of `route.ts` (Strategy-Pattern revision):
apiKey, model, messages, optional response_format, temperature and
max_completion_tokens. Numeric fields are JavaScript numbers, modelled
as rationals. -/
structure ChatRequest where
  apiKey : String
  model : String
  messages : List Message
  response_format : Option RespFormat
  temperature : Rat
  max_completion_tokens : Rat

/-- An outbound HTTP POST as assembled by an adapter: URL, header list
and JSON body. -/
structure OutboundRequest where
  url : String
  headers : List (String × String)
  body : Json

/-- The LLMProvider strategy interface of `route.ts`: a model predicate
and the outbound request builder. -/
structure LLMProvider where
  canHandle : String → Bool
  makeRequest : ChatRequest → OutboundRequest

/-- The spread `...(request.response_format && $response_format$)`:
the field is appended exactly when the caller supplied one. -/
def respFormatField : Option RespFormat → List (String × Json)
  | some f => [("response_format", f.toJson)]
  | none => []

/-- ClaudeProvider of `route.ts`: handles models with the "claude-"
starting string; extracts the first system message into a top-level
system string (JavaScript `||` default), forwards only user messages. -/
def claudeProvider : LLMProvider where
  canHandle := fun model => strBegins model "claude-"
  makeRequest := fun r =>
    { url := "https://api.anthropic.com/v1/messages"
      headers := [("Content-Type", "application/json"),
                  ("x-api-key", r.apiKey),
                  ("anthropic-version", "2023-06-01")]
      body := .obj [
        ("model", .str r.model),
        ("max_tokens", .num r.max_completion_tokens),
        ("temperature", .num r.temperature),
        ("messages", .arr ((r.messages.filter (fun m => m.role == "user")).map Message.toJson)),
        ("system", .str (jsOrStr ((r.messages.find? (fun m => m.role == "system")).map Message.content)
          "You are a helpful assistant."))] }

/-- DeepseekProvider of `route.ts`: handles models with the "deepseek-"
starting string; forwards all messages; token bound sent as max_tokens;
response_format only when supplied. -/
def deepseekProvider : LLMProvider where
  canHandle := fun model => strBegins model "deepseek-"
  makeRequest := fun r =>
    { url := "https://api.deepseek.com/chat/completions"
      headers := [("Content-Type", "application/json"),
                  ("Accept", "application/json"),
                  ("Authorization", "Bearer " ++ r.apiKey)]
      body := .obj ([
        ("model", .str r.model),
        ("messages", .arr (r.messages.map Message.toJson)),
        ("temperature", .num r.temperature),
        ("max_tokens", .num r.max_completion_tokens)] ++ respFormatField r.response_format) }

/-- OpenAIProvider of `route.ts`: the fallback, canHandle is constantly
true; forwards all messages; token bound sent as max_completion_tokens;
response_format only when supplied. -/
def openAIProvider : LLMProvider where
  canHandle := fun _ => true
  makeRequest := fun r =>
    { url := "https://api.openai.com/v1/chat/completions"
      headers := [("Content-Type", "application/json"),
                  ("Authorization", "Bearer " ++ r.apiKey)]
      body := .obj ([
        ("model", .str r.model),
        ("messages", .arr (r.messages.map Message.toJson)),
        ("temperature", .num r.temperature),
        ("max_completion_tokens", .num r.max_completion_tokens)] ++ respFormatField r.response_format) }

/-- The fixed ordered provider list of LLMProviderFactory, OpenAI last
as the fallback. -/
def providers : List LLMProvider :=
  [claudeProvider, deepseekProvider, openAIProvider]

/-- LLMProviderFactory.getProvider: first provider whose canHandle
accepts the model; `none` models the `No provider found` throw. -/
def getProvider (model : String) : Option LLMProvider :=
  providers.find? (fun p => p.canHandle model)

/-- LLMProviderFactory.registerProvider: `providers.splice(-1, 0, p)`,
inserting the new provider just before the last element. -/
def registerProvider (ps : List LLMProvider) (p : LLMProvider) : List LLMProvider :=
  ps.take (ps.length - 1) ++ p :: ps.drop (ps.length - 1)

/-- The validation guard of POST:
`!body.apiKey || !body.model || !body.messages ||`
`body.temperature === undefined || body.max_completion_tokens === undefined`
applied to the raw parsed JSON body. The first access `body.apiKey`
throws on a null body (`Except.error`); all later accesses share the
then-known-non-null receiver and cannot throw, so they are the plain
lookups. -/
def missingRequiredFields (body : Json) : Except Unit Bool :=
  match jsAccess body "apiKey" with
  | .error e => .error e
  | .ok a =>
      .ok (!truthyOpt a ||
           !truthyOpt (getField body "model") ||
           !truthyOpt (getField body "messages") ||
           (getField body "temperature").isNone ||
           (getField body "max_completion_tokens").isNone)

/-- A relay response body of the shape with a single error message. -/
def mkErrorBody (msg : String) : Json :=
  .obj [("error", .obj [("message", .str msg)])]

/-- The first stage of POST on the raw JSON body: `Sum.inl` is a
response issued before LLMProviderFactory.getProvider runs (so no
adapter is invoked and no outbound call happens) — the early HTTP 400
return when the guard evaluates to true, or the HTTP 500 of the outer
catch when the guard itself throws on a null body; `Sum.inr` hands the
body on to provider dispatch. -/
def validateStep (body : Json) : Sum (Nat × Json) Json :=
  match missingRequiredFields body with
  | .error _ => .inl (500, mkErrorBody "Internal server error")
  | .ok true => .inl (400, mkErrorBody "Missing required fields")
  | .ok false => .inr body

/-- Substring occurrence on character lists, the kernel-evaluable
translation of JavaScript String.prototype.includes. -/
def charsContain : List Char → List Char → Bool
  | [], pat => beginsWith [] pat
  | s@(_ :: cs), pat => beginsWith s pat || charsContain cs pat

/-- The JavaScript expression `s.includes(pat)`. -/
def strContains (s pat : String) : Bool :=
  charsContain s.data pat.data

/-- The JavaScript expression `s.substring(0, n)` (first n characters;
JavaScript counts UTF-16 units, which agrees with code points on the
inputs considered here). -/
def strTake (s : String) (n : Nat) : String :=
  ⟨s.data.take n⟩

/-- An upstream vendor HTTP response as observed by POST. The parsed
field records the outcome of JSON.parse on bodyText: `none` when
JSON.parse throws, `some j` when it yields j. -/
structure UpstreamResponse where
  status : Nat
  statusText : String
  bodyText : String
  parsed : Option Json

/-- JavaScript Response.ok: status in the range 200 to 299. -/
def respOk (status : Nat) : Bool :=
  200 ≤ status && status < 300

/-- The synthesized status-line message `HTTP status: statusText`. -/
def statusLine (u : UpstreamResponse) : String :=
  "HTTP " ++ toString u.status ++ ": " ++ u.statusText

/-- The details string synthesized for a non-JSON upstream error body:
a fixed notice for HTML pages, otherwise the first 200 characters. -/
def errorDetails (u : UpstreamResponse) : String :=
  if strContains u.bodyText "<!DOCTYPE" then
    "Received HTML error page instead of JSON"
  else
    strTake u.bodyText 200

/-- The errorData value computed in the non-ok branch of POST: the
upstream body parsed as JSON when possible, otherwise a synthesized
error object carrying the status line and a bounded details string. -/
def errorData (u : UpstreamResponse) : Json :=
  match u.parsed with
  | some j => j
  | none => .obj [("error", .obj [("message", .str (statusLine u)),
                                  ("details", .str (errorDetails u))])]

/-- The non-ok branch of POST: respond with the upstream status and the
body wrapping `errorData.error || fallback-status-line-message`. The
access `errorData.error` throws when the upstream body parsed to JSON
null; that TypeError reaches the outer catch, which answers HTTP 500. -/
def relayError (u : UpstreamResponse) : Nat × Json :=
  match jsAccess (errorData u) "error" with
  | .error _ => (500, mkErrorBody "Internal server error")
  | .ok v =>
      (u.status,
       .obj [("error", jsOrJson v (.obj [("message", .str (statusLine u))]))])

/-- The upstream-response half of POST (after the adapter returned):
ok + parseable body gives 200 with the body passed through; ok +
unparseable body gives 502; non-ok goes to the error relay. Reading
the body text itself is assumed to succeed (the inner catch around
response.text is not exercised by any claim). -/
def handleUpstream (u : UpstreamResponse) : Nat × Json :=
  if respOk u.status then
    match u.parsed with
    | some j => (200, j)
    | none => (502, mkErrorBody "Invalid JSON response from LLM provider")
  else
    relayError u

/-- Helper isClaudeModel of the earlier inline revision of route.ts. -/
def isClaudeModel (model : String) : Bool :=
  strBegins model "claude-"

/-- Helper isDeepseekModel of the earlier inline revision of route.ts. -/
def isDeepseekModel (model : String) : Bool :=
  strBegins model "deepseek-"

/-- The outbound call built by the earlier inline if/else revision of
POST (translated independently from the three branches of that revision). -/
def oldDispatch (r : ChatRequest) : OutboundRequest :=
  if isClaudeModel r.model then
    { url := "https://api.anthropic.com/v1/messages"
      headers := [("Content-Type", "application/json"),
                  ("x-api-key", r.apiKey),
                  ("anthropic-version", "2023-06-01")]
      body := .obj [
        ("model", .str r.model),
        ("max_tokens", .num r.max_completion_tokens),
        ("temperature", .num r.temperature),
        ("messages", .arr ((r.messages.filter (fun m => m.role == "user")).map Message.toJson)),
        ("system", .str (jsOrStr ((r.messages.find? (fun m => m.role == "system")).map Message.content)
          "You are a helpful assistant."))] }
  else if isDeepseekModel r.model then
    { url := "https://api.deepseek.com/chat/completions"
      headers := [("Content-Type", "application/json"),
                  ("Accept", "application/json"),
                  ("Authorization", "Bearer " ++ r.apiKey)]
      body := .obj ([
        ("model", .str r.model),
        ("messages", .arr (r.messages.map Message.toJson)),
        ("temperature", .num r.temperature),
        ("max_tokens", .num r.max_completion_tokens)] ++ respFormatField r.response_format) }
  else
    { url := "https://api.openai.com/v1/chat/completions"
      headers := [("Content-Type", "application/json"),
                  ("Authorization", "Bearer " ++ r.apiKey)]
      body := .obj ([
        ("model", .str r.model),
        ("messages", .arr (r.messages.map Message.toJson)),
        ("temperature", .num r.temperature),
        ("max_completion_tokens", .num r.max_completion_tokens)] ++ respFormatField r.response_format) }

/-- The outbound call built by the Strategy-Pattern revision of POST:
dispatch through the factory, then makeRequest of the selected adapter. -/
def newDispatch (r : ChatRequest) : Option OutboundRequest :=
  (getProvider r.model).map (fun p => p.makeRequest r)

/-- Helper: find? succeeds on any list containing an element the
predicate accepts. -/
theorem find?_isSome_of_mem {α : Type} (p : α → Bool) :
    ∀ (l : List α) (a : α), a ∈ l → p a = true → (l.find? p).isSome = true := by
  intro l
  induction l with
  | nil => intro a ha _; cases ha
  | cons b t ih =>
    intro a ha hp
    cases hb : p b with
    | true => simp [List.find?, hb]
    | false =>
      rcases List.mem_cons.mp ha with rfl | hmem
      · rw [hb] at hp; cases hp
      · simpa [List.find?, hb] using ih a hmem hp

/-- Helper: the last element of a list is a member of it. -/
theorem mem_of_getLast?_eq {α : Type} :
    ∀ {l : List α} {a : α}, l.getLast? = some a → a ∈ l := by
  intro l
  induction l with
  | nil => intro a h; simp at h
  | cons b t ih =>
    intro a h
    cases t with
    | nil => simp_all
    | cons c t' =>
      rw [List.getLast?_cons_cons] at h
      exact List.mem_cons.mpr (Or.inr (ih h))

/-- C1: for every model string, the dispatcher selects exactly one
adapter by first match on the fixed ordered list: a model starting with
"claude-" selects the Anthropic adapter, otherwise one starting with
"deepseek-" selects the Deepseek adapter, and any other string (empty
or unknown included) selects the OpenAI adapter. -/
theorem getProvider_first_match (model : String) :
    getProvider model =
      some (if strBegins model "claude-" then claudeProvider
            else if strBegins model "deepseek-" then deepseekProvider
            else openAIProvider) := by
  cases h1 : strBegins model "claude-" <;>
    cases h2 : strBegins model "deepseek-" <;>
      simp [getProvider, providers, List.find?, claudeProvider, deepseekProvider,
        openAIProvider, h1, h2]

/-- A request whose first system message has empty content, on which the
literal reading of the Anthropic shaping claim fails. -/
def emptySystemRequest : ChatRequest :=
  { apiKey := "k"
    model := "claude-sonnet-4-20250514"
    messages := [⟨"system", ""⟩, ⟨"user", "Hi"⟩]
    response_format := none
    temperature := 1
    max_completion_tokens := 100 }

/-- C2 counterexample: the request has a first (and only) system message
whose content is the empty string, yet the system field of the built payload
is the default string rather than that content, because the source uses
the JavaScript or-default idiom on the content. -/
theorem claude_system_empty_content_cex :
    (emptySystemRequest.messages.find? (fun m => m.role == "system")
      = some ⟨"system", ""⟩) ∧
    getField (claudeProvider.makeRequest emptySystemRequest).body "system"
      = some (.str "You are a helpful assistant.") ∧
    ¬ getField (claudeProvider.makeRequest emptySystemRequest).body "system"
      = some (.str "") := by
  refine ⟨rfl, rfl, fun h => ?_⟩
  have h0 : (some (Json.str "You are a helpful assistant.") : Option Json)
      = some (Json.str "") := h
  have h1 := Option.some.inj h0
  have h2 : "You are a helpful assistant." = "" := by injection h1
  exact absurd h2 (by decide)

/-- C2 amended: for every ChatRequest routed to the Anthropic adapter,
the built body consists of exactly the model of the request, its maxTokens as
max_tokens, its temperature, the role-user messages of the request in their
original order, and a system string that is the content of the first
role-system message, or the default "You are a helpful assistant." when
no system message exists or when the content of the first system message is
the empty string. -/
theorem claude_request_shape (r : ChatRequest) :
    (claudeProvider.makeRequest r).body = Json.obj [
      ("model", .str r.model),
      ("max_tokens", .num r.max_completion_tokens),
      ("temperature", .num r.temperature),
      ("messages", .arr ((r.messages.filter (fun m => m.role == "user")).map Message.toJson)),
      ("system", .str (match r.messages.find? (fun m => m.role == "system") with
        | some m => if m.content == "" then "You are a helpful assistant." else m.content
        | none => "You are a helpful assistant."))] := by
  cases h : r.messages.find? (fun m => m.role == "system") <;>
    simp [claudeProvider, jsOrStr, h]

/-- A raw request body whose temperature field is present but has the
wrong primitive type (a string), which the validation guard accepts. -/
def badTempBody : Json :=
  .obj [("apiKey", .str "k"),
        ("model", .str "gpt-4.1"),
        ("messages", .arr [Json.obj [("role", .str "user"), ("content", .str "Hi")]]),
        ("temperature", .str "hot"),
        ("max_completion_tokens", .num 100)]

/-- C3 counterexample: a body whose temperature is a string, hence of the
wrong primitive type, passes validation and reaches provider dispatch, so
the normalizer neither returns 400 nor prevents the outbound call. -/
theorem validation_no_type_check_cex :
    getField badTempBody "temperature" = some (.str "hot") ∧
    validateStep badTempBody = Sum.inr badTempBody := by
  exact ⟨rfl, rfl⟩

/-- C3 amended: every body in which any of apiKey, model, messages,
temperature, max_completion_tokens is absent is answered before
provider dispatch, so no adapter is invoked and no outbound HTTP call
occurs: with HTTP 400 and body error message "Missing required fields"
when the body is not JSON null, and with the HTTP 500 internal-error
response when it is null (the guard access body.apiKey throws there and
the outer catch answers); a present field of the wrong primitive type
is not checked. -/
theorem missing_field_rejected (body : Json)
    (h : getField body "apiKey" = none ∨ getField body "model" = none ∨
         getField body "messages" = none ∨ getField body "temperature" = none ∨
         getField body "max_completion_tokens" = none) :
    (body = Json.null ∧
      validateStep body = Sum.inl (500, mkErrorBody "Internal server error")) ∨
    (body ≠ Json.null ∧
      validateStep body = Sum.inl (400, mkErrorBody "Missing required fields")) := by
  cases body with
  | null => exact Or.inl ⟨rfl, rfl⟩
  | bool b => exact Or.inr ⟨by simp, rfl⟩
  | num q => exact Or.inr ⟨by simp, rfl⟩
  | str s => exact Or.inr ⟨by simp, rfl⟩
  | arr xs => exact Or.inr ⟨by simp, rfl⟩
  | obj fs =>
    refine Or.inr ⟨by simp, ?_⟩
    have hm : missingRequiredFields (.obj fs) = .ok true := by
      rcases h with h | h | h | h | h <;>
        simp [missingRequiredFields, jsAccess, h, truthyOpt]
    simp [validateStep, hm]

/-- Witness for the amended C3 theorem: the empty JSON object is
rejected with the 400 response before dispatch. -/
theorem missing_field_rejected_witness :
    validateStep (Json.obj []) = Sum.inl (400, mkErrorBody "Missing required fields") := by
  rcases missing_field_rejected (Json.obj []) (Or.inl rfl) with ⟨hnull, _⟩ | ⟨_, h⟩
  · simp at hnull
  · exact h

/-- An upstream 429 whose body is the five-character JSON text null, so
JSON.parse succeeds and yields null. -/
def nullBodyUpstream : UpstreamResponse :=
  { status := 429
    statusText := "Too Many Requests"
    bodyText := "null"
    parsed := some .null }

/-- An upstream 502 whose body is an HTML gateway page, not JSON. -/
def htmlUpstream : UpstreamResponse :=
  { status := 502
    statusText := "Bad Gateway"
    bodyText := "<!DOCTYPE html><html>gateway error</html>"
    parsed := none }

/-- C4 counterexample: an upstream 429 whose body parses to JSON null is
answered with HTTP 500, not with the upstream status as the claim
states (the access errorData.error throws on null and the outer catch
answers); and for an unparseable HTML body the relayed details field is
the fixed HTML-page notice, which is not a snippet of the body. -/
theorem upstream_error_relay_cex :
    (respOk nullBodyUpstream.status = false ∧
     (handleUpstream nullBodyUpstream).1 = 500 ∧
     (handleUpstream nullBodyUpstream).1 ≠ nullBodyUpstream.status) ∧
    ((handleUpstream htmlUpstream).2 = .obj [("error",
       .obj [("message", .str "HTTP 502: Bad Gateway"),
             ("details", .str "Received HTML error page instead of JSON")])] ∧
     strContains htmlUpstream.bodyText "Received HTML error page instead of JSON" = false) := by
  exact ⟨⟨rfl, rfl, by decide⟩, rfl, by decide⟩

/-- C4 amended: for an upstream response with a non-success status, the
relay keeps the upstream status and its body relays a parsed body of
the error-message object shape verbatim; when the body parses to JSON
null the relay instead answers HTTP 500 with the internal-error body
(the access errorData.error throws and the outer catch answers); when
the body does not parse as JSON the relay keeps the upstream status and
synthesizes an error object carrying the status line plus a details
string bounded by 200 characters (the first 200 characters of the body,
or a fixed notice when the body contains the HTML document marker), and
no parse exception reaches the caller (the handler is total). -/
theorem upstream_error_relay (u : UpstreamResponse)
    (hok : respOk u.status = false) :
    (∀ e : Json, u.parsed = some (.obj [("error", e)]) → truthy e = true →
      handleUpstream u = (u.status, .obj [("error", e)])) ∧
    (u.parsed = some Json.null →
      handleUpstream u = (500, mkErrorBody "Internal server error")) ∧
    (u.parsed = none →
      (handleUpstream u).1 = u.status ∧
      (handleUpstream u).2 = .obj [("error",
        .obj [("message", .str (statusLine u)), ("details", .str (errorDetails u))])] ∧
      (errorDetails u).length ≤ 200) := by
  refine ⟨?_, ?_, ?_⟩
  · intro e hp ht
    have h1 : errorData u = Json.obj [("error", e)] := by
      unfold errorData; rw [hp]
    have h2 : jsAccess (errorData u) "error" = .ok (some e) := by rw [h1]; rfl
    simp [handleUpstream, hok, relayError, h2, jsOrJson, ht]
  · intro hp
    have h1 : errorData u = Json.null := by
      unfold errorData; rw [hp]
    have h2 : jsAccess (errorData u) "error" = .error () := by rw [h1]; rfl
    simp [handleUpstream, hok, relayError, h2]
  · intro hp
    have h1 : errorData u = Json.obj [("error",
        .obj [("message", .str (statusLine u)), ("details", .str (errorDetails u))])] := by
      unfold errorData; rw [hp]
    have h2 : jsAccess (errorData u) "error" = .ok (some (Json.obj
        [("message", .str (statusLine u)), ("details", .str (errorDetails u))])) := by
      rw [h1]; rfl
    refine ⟨?_, ?_, ?_⟩
    · simp [handleUpstream, hok, relayError, h2]
    · simp [handleUpstream, hok, relayError, h2, jsOrJson, truthy]
    · unfold errorDetails
      split
      · decide
      · show (strTake u.bodyText 200).length ≤ 200
        show (u.bodyText.data.take 200).length ≤ 200
        simp [List.length_take]

/-- An upstream 429 whose body is the standard JSON error envelope. -/
def rateLimitedUpstream : UpstreamResponse :=
  { status := 429
    statusText := "Too Many Requests"
    bodyText := "\x7b\"error\":\x7b\"message\":\"rate limited\"\x7d\x7d"
    parsed := some (.obj [("error", .obj [("message", .str "rate limited")])]) }

/-- Witness for the amended upstream error relay theorem, at a
parseable 429 error body, at a 429 body parsing to JSON null, and at an
unparseable HTML 502 body. -/
theorem upstream_error_relay_witness :
    handleUpstream rateLimitedUpstream =
      (429, .obj [("error", .obj [("message", .str "rate limited")])]) ∧
    handleUpstream nullBodyUpstream = (500, mkErrorBody "Internal server error") ∧
    ((handleUpstream htmlUpstream).1 = 502 ∧
     (handleUpstream htmlUpstream).2 =
       .obj [("error", .obj [("message", .str "HTTP 502: Bad Gateway"),
         ("details", .str "Received HTML error page instead of JSON")])] ∧
     (errorDetails htmlUpstream).length ≤ 200) :=
  ⟨(upstream_error_relay rateLimitedUpstream rfl).1
     (.obj [("message", .str "rate limited")]) rfl rfl,
   (upstream_error_relay nullBodyUpstream rfl).2.1 rfl,
   (upstream_error_relay htmlUpstream rfl).2.2 rfl⟩

/-- C5: for every ChatRequest routed to the OpenAI or Deepseek adapter,
the built body contains the model, all messages as given in order, the
temperature, the token bound (as max_completion_tokens for OpenAI and
max_tokens for Deepseek), and a response_format field exactly when the
caller supplied one, carrying the supplied value. -/
theorem openai_deepseek_request_shape (r : ChatRequest) :
    (getField (openAIProvider.makeRequest r).body "model" = some (.str r.model) ∧
     getField (openAIProvider.makeRequest r).body "messages"
       = some (.arr (r.messages.map Message.toJson)) ∧
     getField (openAIProvider.makeRequest r).body "temperature" = some (.num r.temperature) ∧
     getField (openAIProvider.makeRequest r).body "max_completion_tokens"
       = some (.num r.max_completion_tokens) ∧
     getField (openAIProvider.makeRequest r).body "response_format"
       = r.response_format.map RespFormat.toJson) ∧
    (getField (deepseekProvider.makeRequest r).body "model" = some (.str r.model) ∧
     getField (deepseekProvider.makeRequest r).body "messages"
       = some (.arr (r.messages.map Message.toJson)) ∧
     getField (deepseekProvider.makeRequest r).body "temperature" = some (.num r.temperature) ∧
     getField (deepseekProvider.makeRequest r).body "max_tokens"
       = some (.num r.max_completion_tokens) ∧
     getField (deepseekProvider.makeRequest r).body "response_format"
       = r.response_format.map RespFormat.toJson) := by
  obtain ⟨ak, mo, ms, rf, te, mt⟩ := r
  cases rf <;> exact ⟨⟨rfl, rfl, rfl, rfl, rfl⟩, ⟨rfl, rfl, rfl, rfl, rfl⟩⟩

/-- C6: for every ChatRequest routed to the Anthropic adapter, the
outbound payload carries no response_format field, whatever the callers
responseFormat value is: the field is silently dropped. -/
theorem claude_drops_response_format (r : ChatRequest) :
    hasField (claudeProvider.makeRequest r).body "response_format" = false := rfl

/-- C7: every upstream response with a success status and a body that
parses as JSON is passed through as HTTP 200 with exactly that JSON
value as the relay body. -/
theorem success_passthrough (u : UpstreamResponse) (j : Json)
    (hok : respOk u.status = true) (hp : u.parsed = some j) :
    handleUpstream u = (200, j) := by
  simp [handleUpstream, hok, hp]

/-- A successful upstream response with a parseable JSON body. -/
def okUpstream : UpstreamResponse :=
  { status := 200
    statusText := "OK"
    bodyText := "\x7b\"choices\":[]\x7d"
    parsed := some (.obj [("choices", .arr [])]) }

/-- Witness for the success passthrough theorem at a concrete 200
response. -/
theorem success_passthrough_witness :
    handleUpstream okUpstream = (200, .obj [("choices", .arr [])]) :=
  success_passthrough okUpstream (.obj [("choices", .arr [])]) rfl rfl

/-- C8: every upstream response with a success status whose body is not
valid JSON makes the relay answer HTTP 502 with the fixed invalid-JSON
error body instead of propagating the parse failure. -/
theorem success_bad_json_502 (u : UpstreamResponse)
    (hok : respOk u.status = true) (hp : u.parsed = none) :
    handleUpstream u = (502, mkErrorBody "Invalid JSON response from LLM provider") := by
  simp [handleUpstream, hok, hp]

/-- A successful upstream response whose body is not JSON. -/
def okBadBodyUpstream : UpstreamResponse :=
  { status := 200
    statusText := "OK"
    bodyText := "event: ping"
    parsed := none }

/-- Witness for the 502 theorem at a concrete 200 response with an
unparseable body. -/
theorem success_bad_json_502_witness :
    handleUpstream okBadBodyUpstream =
      (502, mkErrorBody "Invalid JSON response from LLM provider") :=
  success_bad_json_502 okBadBodyUpstream rfl rfl

/-- C9: LLMProviderFactory.getProvider always returns an adapter, so
the `No provider found` throw is unreachable: on the factory list a
provider is found for every model; more generally a provider is found
whenever the unconditional OpenAI fallback is the last list entry; and
registerProvider, inserting before the last element, preserves the last
entry of any nonempty list. -/
theorem no_provider_throw_unreachable :
    (∀ model : String, (getProvider model).isSome = true) ∧
    (∀ (ps : List LLMProvider) (model : String),
      ps.getLast? = some openAIProvider →
      (ps.find? (fun p => p.canHandle model)).isSome = true) ∧
    (∀ (ps : List LLMProvider) (q : LLMProvider),
      ps ≠ [] → (registerProvider ps q).getLast? = ps.getLast?) := by
  have hgen : ∀ (ps : List LLMProvider) (model : String),
      ps.getLast? = some openAIProvider →
      (ps.find? (fun p => p.canHandle model)).isSome = true := by
    intro ps model hlast
    exact find?_isSome_of_mem _ ps openAIProvider (mem_of_getLast?_eq hlast) rfl
  refine ⟨fun model => hgen providers model rfl, hgen, ?_⟩
  intro ps q hne
  rcases List.eq_nil_or_concat ps with rfl | ⟨ys, y, rfl⟩
  · exact absurd rfl hne
  · unfold registerProvider
    rw [List.concat_eq_append]
    have hlen : (ys ++ [y]).length - 1 = ys.length := by simp
    rw [hlen, List.take_left, List.drop_left]
    rw [List.getLast?_append_cons, List.getLast?_append_cons]
    rfl

/-- Witness for the fallback unreachability theorem: a provider is found
for an arbitrary unknown model, both on the factory list and on the list
obtained by registering another provider, and registration keeps the
fallback last. -/
theorem no_provider_throw_unreachable_witness :
    ((getProvider "mistral-large").isSome = true) ∧
    (((registerProvider providers deepseekProvider).find?
        (fun p => p.canHandle "mistral-large")).isSome = true) ∧
    (registerProvider providers deepseekProvider).getLast? = providers.getLast? :=
  ⟨no_provider_throw_unreachable.1 "mistral-large",
   no_provider_throw_unreachable.2.1 (registerProvider providers deepseekProvider)
     "mistral-large"
     (no_provider_throw_unreachable.2.2 providers deepseekProvider
        (by simp [providers]) ▸ rfl),
   no_provider_throw_unreachable.2.2 providers deepseekProvider (by simp [providers])⟩

/-- C10: on every well-typed ChatRequest (hence every request that
passes validation, which is the same guard in both revisions), the
earlier inline if/else revision and the Strategy-Pattern revision build
the same outbound call: the same vendor URL, the same header list with
the same authentication and version fields, and an identical JSON body. -/
theorem old_new_dispatch_equiv (r : ChatRequest) :
    newDispatch r = some (oldDispatch r) := by
  unfold newDispatch oldDispatch getProvider providers isClaudeModel isDeepseekModel
  cases h1 : strBegins r.model "claude-" <;>
    cases h2 : strBegins r.model "deepseek-" <;>
      simp [List.find?, claudeProvider, deepseekProvider, openAIProvider, h1, h2]

end LLMPlayground
